import Mathlib

/-!
Verification development for the DataEngineX research-discovery pipeline
(`app/services/intelligent_arxiv_service.py`, `app/services/arxiv_service.py`,
`app/controllers/intelligent_search_controller.py`).

The Python source is shallowly embedded: every external effect (the ArXiv
HTTP fetch, the LLM completion call, the database insert) is passed in as an
explicit argument describing that effect's outcome, and the surrounding
control flow is translated statement by statement.  Python `dict.get`
accesses are modelled with `Option` fields and `Option.getD`; a bare
`except:` branch is modelled by matching on the failure constructor of the
corresponding outcome argument.
-/

namespace DataEngineX

/-- A paper record as it flows through the pipeline.  The Python code treats
papers as dicts and reads every field with `.get`, so each field is an
`Option` (or carries the code's own default).  Fields cover exactly the keys
touched by `intelligent_arxiv_service.py`. -/
structure Paper where
  id : Option String := none
  paper_id : Option String := none
  title : Option String := none
  abstract : Option String := none
  year : Option Int := none
  authors : List String := []
  discovery_strategy : Option String := none
  strategy_reasoning : Option String := none
  relevance_score : Option Int := none
  llama_reasoning : Option String := none
deriving DecidableEq

/-- One query strategy dict: `{query, strategy_type, reasoning}`
(`_generate_query_strategies`). -/
structure QueryStrategy where
  query : String
  strategy_type : String
  reasoning : String
deriving DecidableEq

/-- The `insights` object of the LLM analysis.  Every field is read with
`.get` and a default in the Python code, so all fields are optional. -/
structure Insights where
  confidence_score : Option Rat := none
  key_themes : Option (List String) := none
  methodology_patterns : Option (List String) := none
  research_gaps : Option (List String) := none
  suggested_refinements : Option (List String) := none
  related_areas : Option (List String) := none
deriving DecidableEq

/-- A successfully `json.loads`-parsed LLM ranking response
(`_analyze_and_rank_papers`).  `ranked_indices` and `insights` are read with
`.get` (missing is tolerated); `relevance_scores` is read with `[...]`
(missing raises `KeyError`), hence also `Option` with the miss handled at the
use site.  Score keys are JSON object keys, i.e. strings (`str(idx)`). -/
structure Analysis where
  ranked_indices : Option (List Int) := none
  relevance_scores : Option (List (String × Int)) := none
  insights : Option Insights := none
deriving DecidableEq

/-- Modelled from the spec: `IntelligentSearchRequest` is imported from
`app.models.research_models` but that module does not define it, so the
request model is reconstructed from spec §6 (`search(research_question,
knowledge_base_id?, methodology_focus?, exclude_topics[],
include_foundational, include_recent, max_papers, time_range_years?)`). -/
structure IntelligentSearchRequest where
  research_question : String
  knowledge_base_id : Option String := none
  methodology_focus : Option String := none
  exclude_topics : List String := []
  include_foundational : Bool := true
  include_recent : Bool := true
  max_papers : Int := 10
  time_range_years : Option Int := none
deriving DecidableEq

/-- The response shape built at the end of `intelligent_search`.
`processing_time` is wall-clock time and is not modelled. -/
structure IntelligentSearchResponse where
  papers : List Paper
  total_candidates : Nat
  query_strategies : List QueryStrategy
  research_insights : Insights
  confidence_score : Rat
  suggested_refinements : List String
  related_research_areas : List String
deriving DecidableEq

/-- Python `str.split()` with no separator: split on runs of whitespace,
dropping empty pieces. -/
def pySplit (s : String) : List String :=
  (s.split Char.isWhitespace).filter (fun t => t ≠ "")

/-- Python `s[:n]` on a string for `n ≥ 0`: the first `n` code points. -/
def pyStrTake (s : String) (n : Nat) : String :=
  String.mk (s.data.take n)

/-- Python `xs[:k]` for an arbitrary integer `k`: a (possibly empty) initial
segment of `xs`; a negative `k` drops the last `-k` elements. -/
def pySliceTo {α : Type} (xs : List α) (k : Int) : List α :=
  if 0 ≤ k then xs.take k.toNat else xs.take (xs.length - (-k).toNat)

/-- Python `a or b` on two optional strings, where both `None` and the empty
string are falsy (`paper.get('id') or paper.get('paper_id')`). -/
def pyOrStr (a b : Option String) : Option String :=
  match a with
  | some s => if s = "" then b else some s
  | none => b

/-- Python `a or d` where `a` is an optional string and `d` a default
(`request.methodology_focus or 'any'`). -/
def pyOrDefault (a : Option String) (d : String) : String :=
  match a with
  | some s => if s = "" then d else s
  | none => d

/-- Python `pat in s` for strings: substring containment. -/
def pyContains (s pat : String) : Bool :=
  2 ≤ (s.splitOn pat).length

/-- The `alt_terms` synonym table of the strategy-generation fallback,
in its Python insertion order. -/
def altTerms : List (String × String) :=
  [("deep learning", "neural networks"),
   ("computer vision", "image processing"),
   ("machine learning", "artificial intelligence"),
   ("neural networks", "deep learning"),
   ("transformers", "attention mechanisms")]

/-- The `alt_query` computation of the fallback: the first synonym-table
entry contained in the lowercased question is replaced (on the lowercased
question); with no match the question is left unchanged. -/
def altQuery (research_question : String) : String :=
  match altTerms.find? (fun t => pyContains research_question.toLower t.1) with
  | some t => String.replace research_question.toLower t.1 t.2
  | none => research_question

/-- The deterministic fallback branch of `_generate_query_strategies`
(the `except:` arm): a "direct" strategy first, then either three more
keyword-derived strategies (question of ≥ 2 words) or two more (single
word / empty question). -/
def fallbackStrategies (research_question : String) : List QueryStrategy :=
  let keywords := pySplit research_question
  let base : List QueryStrategy :=
    [⟨research_question, "direct", "Direct search with user's exact question"⟩]
  if 2 ≤ keywords.length then
    base ++
      [⟨"(" ++ keywords.headD "" ++ ") AND (" ++ keywords.getLastD "" ++ ")",
        "methodological", "Focus on core methodology and application"⟩,
       ⟨"cat:cs.CV OR cat:cs.LG OR cat:cs.AI " ++ keywords.headD "",
        "broad", "Search in relevant ArXiv categories"⟩,
       ⟨altQuery research_question,
        "alternative", "Search with alternative terminology"⟩]
  else
    base ++
      [⟨"cat:cs.AI " ++ research_question, "broad", "Search in AI category"⟩,
       ⟨research_question ++ " applications", "applied", "Find practical applications"⟩]

/-- `_generate_query_strategies`: `llmStrategies` is the outcome of
`json.loads(await self.llama_client.generate_response(prompt))` — `some`
when the call returned parsable JSON (returned verbatim, unvalidated),
`none` when the call or the parse raised (the `except:` fallback). -/
def generateQueryStrategies (llmStrategies : Option (List QueryStrategy))
    (research_question : String) : List QueryStrategy :=
  match llmStrategies with
  | some strategies => strategies
  | none => fallbackStrategies research_question

/-- The inner `search_with_strategy` closure of
`_execute_multi_strategy_search`.  `fetch` is the outcome of
`self.arxiv_service.search(strategy['query'], max_results=100)` converted to
paper dicts: `none` when that search raised (the closure's bare `except:`
returns `[]`), `some papers` otherwise.  Each returned paper is stamped with
the strategy's type and reasoning. -/
def searchWithStrategy (fetch : QueryStrategy → Option (List Paper))
    (strategy : QueryStrategy) : List Paper :=
  match fetch strategy with
  | none => []
  | some papers =>
      papers.map (fun p =>
        { p with
          discovery_strategy := some strategy.strategy_type,
          strategy_reasoning := some strategy.reasoning })

/-- `paper.get('id') or paper.get('paper_id')`, the deduplication key. -/
def dedupKey (p : Paper) : Option String :=
  pyOrStr p.id p.paper_id

/-- The flatten-and-deduplicate loop of `_execute_multi_strategy_search`:
walk the concatenated per-strategy results, keeping a paper only when its
key is not in `seen` yet. -/
def dedupPapers : List Paper → List (Option String) → List Paper
  | [], _ => []
  | p :: rest, seen =>
      if dedupKey p ∈ seen then dedupPapers rest seen
      else p :: dedupPapers rest (dedupKey p :: seen)

/-- `_execute_multi_strategy_search`: run every strategy (in
strategy-generation order — `asyncio.gather` returns results in argument
order, independent of wall-clock completion), then flatten and deduplicate
first-seen-wins. -/
def executeMultiStrategySearch (fetch : QueryStrategy → Option (List Paper))
    (strategies : List QueryStrategy) : List Paper :=
  dedupPapers ((strategies.map (searchWithStrategy fetch)).flatten) []

/-- One entry of the `paper_summaries` list of `_analyze_and_rank_papers`. -/
structure PaperSummary where
  index : Nat
  title : Option String
  abstract : String
  year : Option Int
  authors : List String
  discovery_strategy : Option String
deriving DecidableEq

/-- The `paper_summaries` construction of `_analyze_and_rank_papers`:
the first 50 papers, each with `paper.get('abstract', '')[:500]` and the
first three authors. -/
def buildPaperSummaries (papers : List Paper) : List PaperSummary :=
  (papers.take 50).enum.map (fun e =>
    { index := e.1,
      title := e.2.title,
      abstract := pyStrTake (e.2.abstract.getD "") 500,
      year := e.2.year,
      authors := e.2.authors.take 3,
      discovery_strategy := e.2.discovery_strategy })

/-- Quote a string as a JSON literal (rendering used by the prompt
serialisation below; escaping of special characters inside the string is
not modelled — no claim depends on it). -/
def jsonStr (s : String) : String := "\"" ++ s ++ "\""

/-- Render an optional string as JSON (`None` → `null`). -/
def jsonOptStr : Option String → String
  | none => "null"
  | some s => jsonStr s

/-- Render an optional integer as JSON (`None` → `null`). -/
def jsonOptInt : Option Int → String
  | none => "null"
  | some i => toString i

/-- Render a list of strings as a JSON array. -/
def jsonStrList (xs : List String) : String :=
  "[" ++ String.intercalate ", " (xs.map jsonStr) ++ "]"

/-- Render one paper summary as a JSON object, fields in the order the
Python dict literal builds them. -/
def jsonSummary (s : PaperSummary) : String :=
  "\x7b\"index\": " ++ toString s.index ++
  ", \"title\": " ++ jsonOptStr s.title ++
  ", \"abstract\": " ++ jsonStr s.abstract ++
  ", \"year\": " ++ jsonOptInt s.year ++
  ", \"authors\": " ++ jsonStrList s.authors ++
  ", \"discovery_strategy\": " ++ jsonOptStr s.discovery_strategy ++ "\x7d"

/-- `json.dumps(paper_summaries, indent=2)` modulo whitespace/escaping:
a deterministic rendering of the summary list. -/
def jsonSummaries (l : List PaperSummary) : String :=
  "[" ++ String.intercalate ", " (l.map jsonSummary) ++ "]"

/-- Python `str(bool)` as interpolated into the prompt f-string. -/
def boolStr : Bool → String
  | true => "True"
  | false => "False"

/-- The leading preamble of the analysis prompt: document count and the
research question. -/
def analysisPreamble (count : Nat) (research_question : String) : String :=
  "Analyze these " ++ toString count ++
  " papers for the research question:\n\"" ++ research_question ++ "\"\n"

/-- Everything of the analysis prompt after the preamble: the request
options block, the serialised paper summaries, and the instruction text. -/
def analysisPromptBody (papers : List Paper)
    (request : IntelligentSearchRequest) : String :=
  "\nUser is looking for:" ++
  "\n- Foundational papers: " ++ boolStr request.include_foundational ++
  "\n- Recent advances: " ++ boolStr request.include_recent ++
  "\n- Methodology focus: " ++ pyOrDefault request.methodology_focus "any" ++
  "\n- Exclude topics: " ++ String.intercalate ", " request.exclude_topics ++
  "\n\nPapers to analyze:\n" ++ jsonSummaries (buildPaperSummaries papers) ++
  "\n\nProvide a JSON response with ranked_indices, relevance_scores and insights." ++
  "\nConsider relevance, quality, foundational importance, and methodology alignment."

/-- The context-assembly part of `_analyze_and_rank_papers`: the prompt
string built from the paper summaries and the request options.  A pure
function of its two arguments; no time-dependent field is embedded. -/
def analysisPrompt (papers : List Paper) (request : IntelligentSearchRequest) :
    String :=
  analysisPreamble (buildPaperSummaries papers).length request.research_question ++
  analysisPromptBody papers request

/-- Python `papers[idx]` for an arbitrary integer index: negative indices
count from the end; `none` models the `IndexError` raised when the index is
below `-len(papers)` (a nonnegative in-range check is done by the caller). -/
def pyGetElem (papers : List Paper) (idx : Int) : Option Paper :=
  let j : Int := if idx < 0 then idx + papers.length else idx
  if j < 0 then none else papers.get? j.toNat

/-- The ranking-application loop of `_analyze_and_rank_papers` (inside the
`try:`): for each index with `idx < len(papers)`, copy the paper, attach
`analysis['relevance_scores'].get(str(idx), 50)` and a rank-position
reasoning string.  `none` models an exception escaping the loop into the
`except:` arm — an `IndexError` from a too-negative index, or the `KeyError`
from a missing `relevance_scores` key. -/
def applyRankingGo (analysis : Analysis) (papers : List Paper) :
    List Int → Nat → Option (List Paper)
  | [], _ => some []
  | idx :: rest, pos =>
      if idx < (papers.length : Int) then
        match pyGetElem papers idx with
        | none => none
        | some p =>
            match analysis.relevance_scores with
            | none => none
            | some scores =>
                let p' := { p with
                  relevance_score := some ((scores.lookup (toString idx)).getD 50),
                  llama_reasoning := some ("Ranked #" ++ toString (pos + 1) ++
                    " for relevance to research question") }
                match applyRankingGo analysis papers rest (pos + 1) with
                | none => none
                | some tail => some (p' :: tail)
      else applyRankingGo analysis papers rest pos

/-- Apply a parsed analysis to the candidate list:
`analysis.get('ranked_indices', [])` walked by `applyRankingGo`. -/
def applyRanking (analysis : Analysis) (papers : List Paper) :
    Option (List Paper) :=
  applyRankingGo analysis papers (analysis.ranked_indices.getD []) 0

/-- The insights dict built by the `except:` arm of
`_analyze_and_rank_papers`. -/
def fallbackInsights : Insights :=
  { confidence_score := some 0.5,
    key_themes := some ["Unable to analyze"],
    suggested_refinements := some ["Try a more specific search"] }

/-- `_analyze_and_rank_papers` after the LLM call: `analysisResult` is the
outcome of `json.loads(await self.llama_client.generate_response(prompt))` —
`none` when the call or parse raised.  Any exception inside the `try:`
(including one raised while applying the ranking) lands in the same
`except:` arm, which returns the papers as-is with the fallback insights. -/
def analyzeAndRankPapers (analysisResult : Option Analysis)
    (papers : List Paper) : List Paper × Insights :=
  match analysisResult with
  | none => (papers, fallbackInsights)
  | some analysis =>
      match applyRanking analysis papers with
      | none => (papers, fallbackInsights)
      | some ranked => (ranked, analysis.insights.getD {})

/-- One entry of the `candidate_papers` list persisted by
`_save_search_session`. -/
structure SessionCandidate where
  paper_id : Option String
  title : Option String
  discovery_strategy : Option String
deriving DecidableEq

/-- One entry of the `ranked_papers` list persisted by
`_save_search_session` (`p.get('relevance_score', 0)`). -/
structure SessionRanked where
  paper_id : Option String
  title : Option String
  relevance_score : Int
deriving DecidableEq

/-- The `session_data` record built by `_save_search_session`. -/
structure SessionData where
  user_id : String
  research_question : String
  knowledge_base_id : Option String
  query_strategies : List QueryStrategy
  candidate_papers : List SessionCandidate
  ranked_papers : List SessionRanked
  research_insights : Insights
  total_candidates : Nat
  max_papers : Int
  confidence_score : Rat
deriving DecidableEq

/-- The `session_data` dict of `_save_search_session`: candidates truncated
to `all_papers[:100]`, ranked papers to `ranked_papers[:request.max_papers]`,
confidence defaulting to `0.5` when missing from the insights. -/
def buildSessionData (user_id : String) (request : IntelligentSearchRequest)
    (strategies : List QueryStrategy) (all_papers ranked_papers : List Paper)
    (insights : Insights) : SessionData :=
  { user_id := user_id,
    research_question := request.research_question,
    knowledge_base_id := request.knowledge_base_id,
    query_strategies := strategies,
    candidate_papers := (all_papers.take 100).map (fun p =>
      { paper_id := p.paper_id, title := p.title,
        discovery_strategy := p.discovery_strategy }),
    ranked_papers := (pySliceTo ranked_papers request.max_papers).map (fun p =>
      { paper_id := p.paper_id, title := p.title,
        relevance_score := p.relevance_score.getD 0 }),
    research_insights := insights,
    total_candidates := all_papers.length,
    max_papers := request.max_papers,
    confidence_score := insights.confidence_score.getD 0.5 }

/-- `_save_search_session`'s write step: the outcome of the database insert
is observed and discarded — `except Exception as e: print(...)` swallows a
failed write, so the function returns `()` in every case. -/
def saveSearchSession (insertOutcome : SessionData → Except String Unit)
    (session_data : SessionData) : Unit :=
  match insertOutcome session_data with
  | Except.ok _ => ()
  | Except.error _ => ()

/-- `intelligent_search` end to end, returning both the response handed to
the caller and the session record handed to the persistence write (exposed
so persisted values can be stated; the HTTP caller sees only the first
component).  External effects appear as arguments: `llmStrategies` the
parsed outcome of the strategy-generation LLM call, `fetch` the per-strategy
ArXiv results, `analysisResult` the parsed outcome of the ranking LLM call,
`insertOutcome` the database insert outcome. -/
def intelligentSearchRun (user_id : String)
    (request : IntelligentSearchRequest)
    (llmStrategies : Option (List QueryStrategy))
    (fetch : QueryStrategy → Option (List Paper))
    (analysisResult : Option Analysis)
    (insertOutcome : SessionData → Except String Unit) :
    IntelligentSearchResponse × SessionData :=
  let query_strategies := generateQueryStrategies llmStrategies request.research_question
  let all_papers := executeMultiStrategySearch fetch query_strategies
  let ra := analyzeAndRankPapers analysisResult all_papers
  let ranked_papers := ra.1
  let insights := ra.2
  let session := buildSessionData user_id request query_strategies all_papers
    ranked_papers insights
  let _ := saveSearchSession insertOutcome session
  ({ papers := pySliceTo ranked_papers request.max_papers,
     total_candidates := all_papers.length,
     query_strategies := query_strategies,
     research_insights := insights,
     confidence_score := insights.confidence_score.getD 0.8,
     suggested_refinements := insights.suggested_refinements.getD [],
     related_research_areas := insights.related_areas.getD [] },
   session)

/-- The response component of a full `intelligent_search` run. -/
def intelligentSearch (user_id : String) (request : IntelligentSearchRequest)
    (llmStrategies : Option (List QueryStrategy))
    (fetch : QueryStrategy → Option (List Paper))
    (analysisResult : Option Analysis)
    (insertOutcome : SessionData → Except String Unit) :
    IntelligentSearchResponse :=
  (intelligentSearchRun user_id request llmStrategies fetch analysisResult
    insertOutcome).1

/-- An HTTP response as seen by `ArxivService.search`. -/
structure HttpResponse where
  status_code : Nat
  text : String
deriving DecidableEq

/-- Outcome of a Python call: a value, or an escaped exception (carried as
its message). -/
inductive PyResult (α : Type) where
  | ok (value : α)
  | raised (exc : String)
deriving DecidableEq

/-- `ArxivService.search` (`app/services/arxiv_service.py`, lines 19–51)
around the HTTP exchange.  `getResponse n` is the response to the `n`-th GET
issued; `parse` abstracts `_parse_response` (XML parsing, irrelevant to the
retry logic).  On a 429 the code runs `await sleep(Config.RATE_LIMIT_DELAY)`
— but `sleep` is `time.sleep` (line 4: `from time import sleep`), which
returns `None`, and awaiting `None` raises
`TypeError: object NoneType can't be used in 'await' expression`, so the
retry GET is never issued.  Otherwise `raise_for_status()` raises on any
4xx/5xx status, and the body is parsed. -/
def arxivSearch (getResponse : Nat → HttpResponse)
    (parse : String → PyResult (List Paper)) : PyResult (List Paper) :=
  let response := getResponse 0
  if response.status_code = 429 then
    PyResult.raised "TypeError: object NoneType can't be used in 'await' expression"
  else if 400 ≤ response.status_code then
    PyResult.raised "HTTPStatusError"
  else parse response.text

/-- Modelled from the spec: request validation for
`IntelligentSearchRequest`.  The pydantic model performing it is imported
from `app.models.research_models` but missing from the source tree; spec
§7(c) requires that an empty research question or `max_papers ≤ 0` be
surfaced to the caller as a rejected request, not silently defaulted. -/
def validateIntelligentSearchRequest (request : IntelligentSearchRequest) :
    Except String IntelligentSearchRequest :=
  if request.research_question = "" then
    Except.error "research_question must be a non-empty string"
  else if request.max_papers ≤ 0 then
    Except.error "max_papers must be a positive integer"
  else Except.ok request

/-! ## Helper lemmas -/

theorem pySliceTo_eq_take {α : Type} (xs : List α) (k : Int) :
    ∃ m, pySliceTo xs k = xs.take m := by
  unfold pySliceTo
  split
  · exact ⟨k.toNat, rfl⟩
  · exact ⟨xs.length - (-k).toNat, rfl⟩

theorem pySliceTo_length_le {α : Type} (xs : List α) (k : Int) (h : 0 ≤ k) :
    (pySliceTo xs k).length ≤ k.toNat := by
  unfold pySliceTo
  rw [if_pos h, List.length_take]
  exact min_le_left _ _

theorem pyStrTake_length_le (s : String) (n : Nat) :
    (pyStrTake s n).length ≤ n := by
  have h : (pyStrTake s n).length = (s.data.take n).length := rfl
  rw [h, List.length_take]
  exact min_le_left _ _

/-! ## Claim theorems -/

/-- C1: when the ranking LLM call fails (raises, or returns unparsable
text — both reach the `except:` arm, modelled here as `analysisResult =
none`), `intelligent_search` still returns a response (the embedding is a
total function: nothing is raised to the caller) whose `confidence_score`
is `0.5` and whose `papers` are an initial segment of the merged candidate
list, i.e. the papers appear in their original discovery order. -/
theorem c1_llm_failure_returns_degraded_response (user_id : String)
    (request : IntelligentSearchRequest)
    (llmStrategies : Option (List QueryStrategy))
    (fetch : QueryStrategy → Option (List Paper))
    (insertOutcome : SessionData → Except String Unit) :
    (intelligentSearch user_id request llmStrategies fetch none
      insertOutcome).confidence_score = 0.5 ∧
    (intelligentSearch user_id request llmStrategies fetch none
        insertOutcome).papers =
      pySliceTo (executeMultiStrategySearch fetch
        (generateQueryStrategies llmStrategies request.research_question))
        request.max_papers ∧
    ∃ m, (intelligentSearch user_id request llmStrategies fetch none
        insertOutcome).papers =
      (executeMultiStrategySearch fetch
        (generateQueryStrategies llmStrategies request.research_question)).take m :=
  ⟨rfl, rfl, pySliceTo_eq_take _ _⟩

/-- C2 counterexample: on an unparsable LLM response the fallback returns
the input papers untouched — a paper that entered without a
`relevance_score` leaves without one, so its score is *not* 50 as the claim
states. -/
theorem c2_counterexample :
    (analyzeAndRankPapers none
      [{ id := some "2401.00001", title := some "A Paper" }]).1 =
      [{ id := some "2401.00001", title := some "A Paper" }] ∧
    ({ id := some "2401.00001", title := some "A Paper" } : Paper).relevance_score
      ≠ some 50 :=
  ⟨rfl, by decide⟩

/-- C2 (amended): feeding the ranker/synthesizer an unparsable LLM response
yields the input list itself (same length, original order, every paper's
fields — including `relevance_score` — unchanged, so no uniform score 50 is
assigned), with `confidence_score = 0.5` and the fixed sentinel marker
`"Unable to analyze"` in `key_themes`. -/
theorem c2_fallback_shape (papers : List Paper) :
    analyzeAndRankPapers none papers = (papers, fallbackInsights) ∧
    (analyzeAndRankPapers none papers).1.length = papers.length ∧
    fallbackInsights.confidence_score = some 0.5 ∧
    fallbackInsights.key_themes = some ["Unable to analyze"] :=
  ⟨rfl, rfl, rfl, rfl⟩

/-- C4 counterexample: the LLM path of `_generate_query_strategies` returns
the parsed JSON verbatim, so a parsable-but-empty array yields zero
strategies — not between 3 and 5. -/
theorem c4_counterexample :
    generateQueryStrategies (some []) "transformer attention mechanisms" = [] ∧
    ¬ 3 ≤ (generateQueryStrategies (some [])
      "transformer attention mechanisms").length :=
  ⟨rfl, by decide⟩

/-- C4 (amended): on the LLM path the parsed strategy array is returned
as-is without validation (any length can result); on the deterministic
fallback path the generator returns 3 or 4 strategies — within 3–5
inclusive — and the first is the verbatim research question labeled
"direct". -/
theorem c4_generator_properties (research_question : String)
    (parsed : List QueryStrategy) :
    generateQueryStrategies (some parsed) research_question = parsed ∧
    generateQueryStrategies none research_question =
      fallbackStrategies research_question ∧
    (3 ≤ (fallbackStrategies research_question).length ∧
      (fallbackStrategies research_question).length ≤ 5) ∧
    (fallbackStrategies research_question).head? =
      some ⟨research_question, "direct",
        "Direct search with user's exact question"⟩ := by
  refine ⟨rfl, rfl, ?_, ?_⟩
  · by_cases h : 2 ≤ (pySplit research_question).length <;>
      simp [fallbackStrategies, h]
  · by_cases h : 2 ≤ (pySplit research_question).length <;>
      simp [fallbackStrategies, h]

/-- C6: a request with an empty research question or a nonpositive
`max_papers` is rejected by the (spec-modelled) request validation — the
caller sees an error, the value is not silently defaulted. -/
theorem c6_invalid_request_rejected (request : IntelligentSearchRequest)
    (h : request.research_question = "" ∨ request.max_papers ≤ 0) :
    ∃ e, validateIntelligentSearchRequest request = Except.error e := by
  unfold validateIntelligentSearchRequest
  rcases h with h | h
  · rw [if_pos h]
    exact ⟨_, rfl⟩
  · by_cases hq : request.research_question = ""
    · rw [if_pos hq]
      exact ⟨_, rfl⟩
    · rw [if_neg hq, if_pos h]
      exact ⟨_, rfl⟩

/-- C6 witness: the concrete empty-question request is rejected. -/
theorem c6_witness :
    ∃ e, validateIntelligentSearchRequest { research_question := "" } =
      Except.error e :=
  c6_invalid_request_rejected { research_question := "" } (Or.inl rfl)

/-- The GET outcomes used for the C7 evaluation: the first request is
rate-limited, and a retry — had one been issued — would have succeeded. -/
def c7Responses : Nat → HttpResponse := fun n =>
  if n = 0 then { status_code := 429, text := "" }
  else { status_code := 200, text := "<feed></feed>" }

/-- C7 (code bug evaluation): on an HTTP 429 first response,
`ArxivService.search` raises a `TypeError` (awaiting the `None` returned by
`time.sleep`) instead of performing the single delayed retry required by the
spec — even though the retry would have succeeded here.  On a non-429
success the parsed body is returned, confirming the divergence is specific
to the 429 branch. -/
theorem c7_429_raises_instead_of_retrying :
    arxivSearch c7Responses (fun _ => PyResult.ok []) =
      PyResult.raised
        "TypeError: object NoneType can't be used in 'await' expression" ∧
    arxivSearch (fun _ => { status_code := 200, text := "<feed></feed>" })
      (fun _ => PyResult.ok []) = PyResult.ok [] :=
  ⟨rfl, by decide⟩

/-- C8: the context assembler is pure — two calls with equal inputs yield a
byte-identical prompt string; moreover every per-document entry carries an
abstract truncated to at most 500 characters, and the blob begins with the
preamble stating the document count and the research question. -/
theorem c8_context_assembler_pure (papers₁ papers₂ : List Paper)
    (request₁ request₂ : IntelligentSearchRequest)
    (hp : papers₁ = papers₂) (hr : request₁ = request₂) :
    analysisPrompt papers₁ request₁ = analysisPrompt papers₂ request₂ ∧
    (∀ s ∈ buildPaperSummaries papers₁, s.abstract.length ≤ 500) ∧
    ∃ rest, analysisPrompt papers₁ request₁ =
      analysisPreamble (buildPaperSummaries papers₁).length
        request₁.research_question ++ rest := by
  subst hp
  subst hr
  refine ⟨rfl, ?_, ⟨analysisPromptBody papers₁ request₁, rfl⟩⟩
  intro s hs
  unfold buildPaperSummaries at hs
  rw [List.mem_map] at hs
  obtain ⟨e, _, rfl⟩ := hs
  exact pyStrTake_length_le _ _

/-- The concrete paper used to exercise the C8 theorem. -/
def c8Paper : Paper :=
  { id := some "2401.00003", title := some "Attention Is All You Need",
    abstract := some "We propose a new network architecture.",
    authors := ["A. Vaswani"] }

/-- The concrete request used to exercise the C8 theorem. -/
def c8Request : IntelligentSearchRequest :=
  { research_question := "transformer attention mechanisms" }

/-- C8 witness: the theorem instantiated at a concrete paper list and
request, both equalities discharged by `rfl`. -/
theorem c8_witness :
    analysisPrompt [c8Paper] c8Request = analysisPrompt [c8Paper] c8Request ∧
    (∀ s ∈ buildPaperSummaries [c8Paper], s.abstract.length ≤ 500) ∧
    ∃ rest, analysisPrompt [c8Paper] c8Request =
      analysisPreamble (buildPaperSummaries [c8Paper]).length
        c8Request.research_question ++ rest :=
  c8_context_assembler_pure [c8Paper] [c8Paper] c8Request c8Request rfl rfl

theorem buildSessionData_candidates_le (user_id : String)
    (request : IntelligentSearchRequest) (strategies : List QueryStrategy)
    (all_papers ranked_papers : List Paper) (insights : Insights) :
    (buildSessionData user_id request strategies all_papers ranked_papers
      insights).candidate_papers.length ≤ 100 := by
  show ((all_papers.take 100).map _).length ≤ 100
  rw [List.length_map, List.length_take]
  exact min_le_left _ _

theorem buildSessionData_ranked_le (user_id : String)
    (request : IntelligentSearchRequest) (strategies : List QueryStrategy)
    (all_papers ranked_papers : List Paper) (insights : Insights)
    (h : 0 ≤ request.max_papers) :
    ((buildSessionData user_id request strategies all_papers ranked_papers
      insights).ranked_papers.length : Int) ≤ request.max_papers := by
  show (((pySliceTo ranked_papers request.max_papers).map _).length : Int) ≤ _
  rw [List.length_map]
  calc ((pySliceTo ranked_papers request.max_papers).length : Int)
      ≤ (request.max_papers.toNat : Int) := by
        exact_mod_cast pySliceTo_length_le ranked_papers request.max_papers h
    _ = request.max_papers := Int.toNat_of_nonneg h

/-- C9: the persisted session record holds at most 100 candidate entries and
at most `max_papers` ranked entries, and the outcome of the database insert
(success or failure) does not change anything the run produces — in
particular the response handed to the caller is identical whether the write
succeeds or fails, and the write failure is swallowed (the embedding of
`_save_search_session` returns `()` on both insert outcomes). -/
theorem c9_session_truncation_and_swallowed_write (user_id : String)
    (request : IntelligentSearchRequest)
    (llmStrategies : Option (List QueryStrategy))
    (fetch : QueryStrategy → Option (List Paper))
    (analysisResult : Option Analysis)
    (insert₁ insert₂ : SessionData → Except String Unit)
    (h : 0 ≤ request.max_papers) :
    (intelligentSearchRun user_id request llmStrategies fetch analysisResult
      insert₁).2.candidate_papers.length ≤ 100 ∧
    ((intelligentSearchRun user_id request llmStrategies fetch analysisResult
      insert₁).2.ranked_papers.length : Int) ≤ request.max_papers ∧
    intelligentSearchRun user_id request llmStrategies fetch analysisResult
        insert₁ =
      intelligentSearchRun user_id request llmStrategies fetch analysisResult
        insert₂ ∧
    saveSearchSession insert₂
      (intelligentSearchRun user_id request llmStrategies fetch analysisResult
        insert₁).2 = () :=
  ⟨buildSessionData_candidates_le _ _ _ _ _ _,
   buildSessionData_ranked_le _ _ _ _ _ _ h, rfl, rfl⟩

/-- C9 witness: the theorem at a concrete run whose insert fails
(`Except.error "db down"`) versus one whose insert succeeds. -/
theorem c9_witness :
    (intelligentSearchRun "user-1" { research_question := "q" } none
      (fun _ => none) none (fun _ => Except.error "db down")).2.candidate_papers.length ≤ 100 ∧
    ((intelligentSearchRun "user-1" { research_question := "q" } none
      (fun _ => none) none (fun _ => Except.error "db down")).2.ranked_papers.length : Int) ≤
      ({ research_question := "q" } : IntelligentSearchRequest).max_papers ∧
    intelligentSearchRun "user-1" { research_question := "q" } none
        (fun _ => none) none (fun _ => Except.error "db down") =
      intelligentSearchRun "user-1" { research_question := "q" } none
        (fun _ => none) none (fun _ => Except.ok ()) ∧
    saveSearchSession (fun _ => Except.ok ())
      (intelligentSearchRun "user-1" { research_question := "q" } none
        (fun _ => none) none (fun _ => Except.error "db down")).2 = () :=
  c9_session_truncation_and_swallowed_write "user-1"
    { research_question := "q" } none (fun _ => none) none
    (fun _ => Except.error "db down") (fun _ => Except.ok ()) (by decide)

/-- C10: on a run where the LLM ranking response parses and its ranking is
applied without an exception, but the insights object has no
`confidence_score`, the caller-visible response defaults the confidence to
`0.8` while the session record persisted for the very same run defaults it
to `0.5` — the two defaults disagree. -/
theorem c10_confidence_default_mismatch (user_id : String)
    (request : IntelligentSearchRequest)
    (llmStrategies : Option (List QueryStrategy))
    (fetch : QueryStrategy → Option (List Paper))
    (analysis : Analysis) (insights : Insights) (ranked : List Paper)
    (insertOutcome : SessionData → Except String Unit)
    (hins : analysis.insights = some insights)
    (hconf : insights.confidence_score = none)
    (hrank : applyRanking analysis (executeMultiStrategySearch fetch
      (generateQueryStrategies llmStrategies request.research_question)) =
      some ranked) :
    (intelligentSearchRun user_id request llmStrategies fetch (some analysis)
      insertOutcome).1.confidence_score = 0.8 ∧
    (intelligentSearchRun user_id request llmStrategies fetch (some analysis)
      insertOutcome).2.confidence_score = 0.5 := by
  have h1 : analyzeAndRankPapers (some analysis)
      (executeMultiStrategySearch fetch
        (generateQueryStrategies llmStrategies request.research_question)) =
      (ranked, insights) := by
    simp [analyzeAndRankPapers, hrank, hins]
  simp [intelligentSearchRun, buildSessionData, h1, hconf]

/-- The parsed analysis used to exercise the C10 theorem: an empty ranking
and an insights object with every key absent. -/
def c10Analysis : Analysis :=
  { ranked_indices := some [], relevance_scores := some [],
    insights := some {} }

/-- C10 witness: a concrete run (every strategy search failed, so zero
candidates; the LLM analysis parsed with an empty ranking and a
confidence-free insights object) on which the response reports `0.8` and
the session record stores `0.5`. -/
theorem c10_witness :
    (intelligentSearchRun "user-1" { research_question := "q" } none
      (fun _ => none) (some c10Analysis)
      (fun _ => Except.ok ())).1.confidence_score = 0.8 ∧
    (intelligentSearchRun "user-1" { research_question := "q" } none
      (fun _ => none) (some c10Analysis)
      (fun _ => Except.ok ())).2.confidence_score = 0.5 :=
  c10_confidence_default_mismatch "user-1" { research_question := "q" } none
    (fun _ => none) c10Analysis {} [] (fun _ => Except.ok ()) rfl rfl (by decide)

theorem dedupPapers_key_not_seen (l : List Paper) :
    ∀ seen : List (Option String), ∀ p ∈ dedupPapers l seen, dedupKey p ∉ seen := by
  induction l with
  | nil =>
      intro seen p hp
      cases hp
  | cons q rest ih =>
      intro seen p hp
      unfold dedupPapers at hp
      by_cases hq : dedupKey q ∈ seen
      · rw [if_pos hq] at hp
        exact ih seen p hp
      · rw [if_neg hq] at hp
        rcases List.mem_cons.mp hp with h | h
        · subst h
          exact hq
        · intro hcon
          exact ih (dedupKey q :: seen) p h (List.mem_cons_of_mem _ hcon)

theorem dedupPapers_keys_nodup (l : List Paper) :
    ∀ seen : List (Option String), ((dedupPapers l seen).map dedupKey).Nodup := by
  induction l with
  | nil =>
      intro seen
      simp [dedupPapers]
  | cons q rest ih =>
      intro seen
      unfold dedupPapers
      by_cases hq : dedupKey q ∈ seen
      · rw [if_pos hq]
        exact ih seen
      · rw [if_neg hq]
        simp only [List.map_cons, List.nodup_cons]
        refine ⟨?_, ih (dedupKey q :: seen)⟩
        intro hmem
        rw [List.mem_map] at hmem
        obtain ⟨p, hp, hkey⟩ := hmem
        exact dedupPapers_key_not_seen rest (dedupKey q :: seen) p hp
          (by rw [hkey]; exact List.mem_cons_self _ _)

theorem dedupPapers_keeps_first (l : List Paper) :
    ∀ seen : List (Option String), ∀ k : Option String, k ∉ seen →
    (∃ p ∈ l, dedupKey p = k) →
    ∃ q, l.find? (fun p => dedupKey p == k) = some q ∧
      q ∈ dedupPapers l seen := by
  induction l with
  | nil =>
      intro seen k _ hex
      obtain ⟨p, hp, _⟩ := hex
      cases hp
  | cons a rest ih =>
      intro seen k hk hex
      by_cases ha : dedupKey a = k
      · refine ⟨a, List.find?_cons_of_pos rest (beq_iff_eq.mpr ha), ?_⟩
        unfold dedupPapers
        rw [if_neg (ha ▸ hk)]
        exact List.mem_cons_self _ _
      · have hfind : (a :: rest).find? (fun p => dedupKey p == k) =
            rest.find? (fun p => dedupKey p == k) :=
          List.find?_cons_of_neg rest (by simpa using ha)
        have hex' : ∃ p ∈ rest, dedupKey p = k := by
          obtain ⟨p, hp, hpk⟩ := hex
          rcases List.mem_cons.mp hp with h | h
          · exact absurd (h ▸ hpk) ha
          · exact ⟨p, h, hpk⟩
        unfold dedupPapers
        by_cases haseen : dedupKey a ∈ seen
        · rw [if_pos haseen]
          obtain ⟨q, hq1, hq2⟩ := ih seen k hk hex'
          exact ⟨q, hfind ▸ hq1, hq2⟩
        · rw [if_neg haseen]
          have hk' : k ∉ dedupKey a :: seen := by
            intro hmem
            rcases List.mem_cons.mp hmem with h | h
            · exact ha h.symm
            · exact hk h
          obtain ⟨q, hq1, hq2⟩ := ih (dedupKey a :: seen) k hk' hex'
          exact ⟨q, hfind ▸ hq1, List.mem_cons_of_mem _ hq2⟩

/-- C3: the merged candidate set of `_execute_multi_strategy_search` has
pairwise-distinct deduplication keys (exactly one paper per external id);
for any key present in the strategy-ordered flattened results, the merged
set keeps precisely the first occurrence — the paper stamped (via
`discovery_strategy`) by the first strategy, in strategy-generation order,
that surfaced it; and the merge is a deterministic function of the
per-strategy results alone (`asyncio.gather` returns them in argument
order), independent of wall-clock completion order. -/
theorem c3_dedup_unique_first_wins
    (fetch fetch₂ : QueryStrategy → Option (List Paper))
    (strategies : List QueryStrategy) (k : Option String)
    (hsame : ∀ s ∈ strategies, fetch s = fetch₂ s)
    (hk : ∃ p ∈ (strategies.map (searchWithStrategy fetch)).flatten,
      dedupKey p = k) :
    ((executeMultiStrategySearch fetch strategies).map dedupKey).Nodup ∧
    (∃ q, ((strategies.map (searchWithStrategy fetch)).flatten).find?
        (fun p => dedupKey p == k) = some q ∧
      q ∈ executeMultiStrategySearch fetch strategies) ∧
    executeMultiStrategySearch fetch strategies =
      executeMultiStrategySearch fetch₂ strategies := by
  refine ⟨dedupPapers_keys_nodup _ _,
    dedupPapers_keeps_first _ _ k (List.not_mem_nil k) hk, ?_⟩
  unfold executeMultiStrategySearch
  have hmap : strategies.map (searchWithStrategy fetch) =
      strategies.map (searchWithStrategy fetch₂) :=
    List.map_congr_left (fun s hs => by unfold searchWithStrategy; rw [hsame s hs])
  rw [hmap]

/-- First strategy of the C3 witness. -/
def c3Strategy₁ : QueryStrategy := ⟨"q1", "direct", "r1"⟩

/-- Second strategy of the C3 witness: surfaces the same external id. -/
def c3Strategy₂ : QueryStrategy := ⟨"q2", "broad", "r2"⟩

/-- The C3 witness fetch: both strategies return a paper with id `X`. -/
def c3Fetch : QueryStrategy → Option (List Paper) :=
  fun _ => some [{ id := some "X" }]

/-- C3 witness: two strategies surfacing the same id; the merged set has
unique keys, keeps the first occurrence (stamped "direct" by the first
strategy), and is unchanged under an extensionally equal fetch. -/
theorem c3_witness :
    ((executeMultiStrategySearch c3Fetch [c3Strategy₁, c3Strategy₂]).map
      dedupKey).Nodup ∧
    (∃ q, (([c3Strategy₁, c3Strategy₂].map
        (searchWithStrategy c3Fetch)).flatten).find?
        (fun p => dedupKey p == some "X") = some q ∧
      q ∈ executeMultiStrategySearch c3Fetch [c3Strategy₁, c3Strategy₂]) ∧
    executeMultiStrategySearch c3Fetch [c3Strategy₁, c3Strategy₂] =
      executeMultiStrategySearch c3Fetch [c3Strategy₁, c3Strategy₂] :=
  c3_dedup_unique_first_wins c3Fetch c3Fetch [c3Strategy₁, c3Strategy₂]
    (some "X") (fun _ _ => rfl)
    ⟨{ id := some "X", discovery_strategy := some "direct",
       strategy_reasoning := some "r1" }, by decide, by decide⟩

/-- The parsed analysis of the C5 counterexample: `ranked_indices` holds the
single index `-1`, outside the valid range `[0, 1)` for a one-paper
candidate list. -/
def c5Analysis : Analysis :=
  { ranked_indices := some [-1], relevance_scores := some [] }

/-- The single candidate of the C5 counterexample and witness. -/
def c5Paper : Paper := { id := some "2401.00002" }

/-- C5 counterexample: with one candidate, the index `-1` lies outside
`[0, 1)` yet is *not* dropped — `idx < len(papers)` holds for every negative
index, so the paper is selected (Python indexing from the end) and scored;
the ranked output is not the empty list the claim requires. -/
theorem c5_counterexample :
    applyRanking c5Analysis [c5Paper] =
      some [{ c5Paper with
        relevance_score := some 50,
        llama_reasoning :=
          some "Ranked #1 for relevance to research question" }] ∧
    applyRanking c5Analysis [c5Paper] ≠ some [] :=
  ⟨by decide, by decide⟩

/-- C5 (amended): in the ranking-application loop, an index `≥ len(papers)`
is dropped silently and a retained index in `[0, len)` selects exactly the
candidate at that position (appended with its score, default 50); but a
negative index is *not* dropped: one with `-len ≤ idx < 0` selects the
candidate `len + idx` positions from the start (Python indexing from the
end), and one with `idx < -len` raises `IndexError`, aborting the whole
analysis into the fallback. -/
theorem c5_index_handling (analysis : Analysis) (papers : List Paper)
    (idx : Int) (rest : List Int) (pos : Nat)
    (scores : List (String × Int)) (p : Paper) :
    ((papers.length : Int) ≤ idx →
      applyRankingGo analysis papers (idx :: rest) pos =
        applyRankingGo analysis papers rest pos) ∧
    (0 ≤ idx → idx < (papers.length : Int) →
      pyGetElem papers idx = papers.get? idx.toNat) ∧
    (idx < 0 → 0 ≤ idx + (papers.length : Int) →
      pyGetElem papers idx = papers.get? (idx + (papers.length : Int)).toNat) ∧
    (idx + (papers.length : Int) < 0 →
      applyRankingGo analysis papers (idx :: rest) pos = none) ∧
    (0 ≤ idx → idx < (papers.length : Int) →
      analysis.relevance_scores = some scores →
      papers.get? idx.toNat = some p →
      applyRankingGo analysis papers (idx :: rest) pos =
        (applyRankingGo analysis papers rest (pos + 1)).map
          (fun tail => ({ p with
            relevance_score := some ((scores.lookup (toString idx)).getD 50),
            llama_reasoning := some ("Ranked #" ++ toString (pos + 1) ++
              " for relevance to research question") } : Paper) :: tail)) := by
  refine ⟨?_, ?_, ?_, ?_, ?_⟩
  · intro h
    simp only [applyRankingGo]
    rw [if_neg (not_lt.mpr h)]
  · intro h0 _
    simp [pyGetElem, not_lt.mpr h0]
  · intro hneg hge
    simp [pyGetElem, hneg, not_lt.mpr hge]
  · intro h
    have hidx0 : idx < 0 := by omega
    have hlt : idx < (papers.length : Int) := by omega
    have hnone : pyGetElem papers idx = none := by
      simp only [pyGetElem]
      rw [if_pos hidx0, if_pos h]
    simp only [applyRankingGo]
    rw [if_pos hlt, hnone]
  · intro h0 h1 hs hp
    have h2 : pyGetElem papers idx = some p := by
      simp only [pyGetElem]
      rw [if_neg (not_lt.mpr h0), if_neg (not_lt.mpr h0)]
      exact hp
    simp only [applyRankingGo]
    rw [if_pos h1, h2, hs]
    cases applyRankingGo analysis papers rest (pos + 1) <;> rfl

/-- C5 witness: the amended theorem exercised on the one-paper candidate
list — index 5 is dropped, index 0 selects the paper at position 0, index
`-1` selects from the end, index `-2` aborts into the fallback, and the
retained index 0 conses the scored paper onto the rest of the ranking. -/
theorem c5_witness :
    (applyRankingGo c5Analysis [c5Paper] [5] 0 =
      applyRankingGo c5Analysis [c5Paper] [] 0) ∧
    (pyGetElem [c5Paper] 0 = [c5Paper].get? (0 : Int).toNat) ∧
    (pyGetElem [c5Paper] (-1) =
      [c5Paper].get? ((-1 : Int) + (([c5Paper].length : Nat) : Int)).toNat) ∧
    (applyRankingGo c5Analysis [c5Paper] [-2] 0 = none) ∧
    (applyRankingGo c5Analysis [c5Paper] [0] 0 =
      (applyRankingGo c5Analysis [c5Paper] [] (0 + 1)).map
        (fun tail => ({ c5Paper with
          relevance_score :=
            some ((([] : List (String × Int)).lookup (toString (0 : Int))).getD 50),
          llama_reasoning := some ("Ranked #" ++ toString (0 + 1) ++
            " for relevance to research question") } : Paper) :: tail)) :=
  ⟨(c5_index_handling c5Analysis [c5Paper] 5 [] 0 [] c5Paper).1 (by decide),
   (c5_index_handling c5Analysis [c5Paper] 0 [] 0 [] c5Paper).2.1
     (by decide) (by decide),
   (c5_index_handling c5Analysis [c5Paper] (-1) [] 0 [] c5Paper).2.2.1
     (by decide) (by decide),
   (c5_index_handling c5Analysis [c5Paper] (-2) [] 0 [] c5Paper).2.2.2.1
     (by decide),
   (c5_index_handling c5Analysis [c5Paper] 0 [] 0 [] c5Paper).2.2.2.2
     (by decide) (by decide) rfl (by decide)⟩

end DataEngineX
